import Mathlib

/-!
Verification of the first-go-app book service.

This file shallowly embeds the core of the repository, namely the request
validator at internal/request/validate.go, the Book entity and its JSON
encoding contract at internal/data/book.go, the BookStore operations
(GetAll, Get, Insert at internal/data, Update modelled from the spec),
the migration seeding at internal/data/migrate.go, and the HTTP handlers
at cmd/api/routes.go. Go maps of field errors are embedded as association
lists whose keys are pairwise distinct; Go slices are embedded as an
Option of a list, distinguishing the Go nil slice (encoded as JSON null)
from a non-nil slice (encoded as a JSON array), which matters for the
GetAll contract. Machine integers (int64, int) are embedded as Int; none
of the arithmetic here can overflow on the inputs considered.
-/

/-- The domain entity, from internal/data/book.go. The field `id` embeds
the Go int64, `year` the Go int. -/
structure Book where
  id : Int
  title : String
  author : String
  year : Int
deriving Repr, DecidableEq

/-- The write DTO, from internal/request/book.go. -/
structure FullBookRequest where
  title : String
  author : String
  year : Int
deriving Repr, DecidableEq

/-- ValidateFullBookRequest, from internal/request/validate.go. The Go
function fills a map with keys among title, author, year; since those
three keys are distinct, the map is embedded as an association list built
in the order of the three conditional assignments. -/
def ValidateFullBookRequest (br : FullBookRequest) : List (String × String) :=
  (if br.title = "" then [("title", "title is required")] else [])
  ++ (if br.author = "" then [("author", "author is required")] else [])
  ++ (if br.year < 1 then [("year", "year must be a positive integer")] else [])

/-- A request is valid when title and author are non-empty and year is at
least 1; this names the validity condition of the spec so that the
validator theorems can refer to it. -/
def ValidRequest (br : FullBookRequest) : Prop :=
  br.title ≠ "" ∧ br.author ≠ "" ∧ 1 ≤ br.year

instance (br : FullBookRequest) : Decidable (ValidRequest br) := by
  unfold ValidRequest; infer_instance

/-- C1: the error map of ValidateFullBookRequest is empty iff the request
is valid, i.e. iff title is non-empty, author is non-empty and year is at
least 1. -/
theorem validate_empty_iff_valid (br : FullBookRequest) :
    ValidateFullBookRequest br = [] ↔ ValidRequest br := by
  unfold ValidateFullBookRequest ValidRequest
  constructor
  · intro h
    by_cases ht : br.title = "" <;> by_cases ha : br.author = "" <;>
      by_cases hy : br.year < 1 <;>
      simp [ht, ha, hy] at h
    exact ⟨ht, ha, by omega⟩
  · rintro ⟨ht, ha, hy⟩
    have hy' : ¬ br.year < 1 := by omega
    simp [ht, ha, hy']

/-- C2: a request violating exactly one of the three rules yields the
singleton map on that field, carrying the fixed message of the field:
with title empty and the other two rules satisfied the map is exactly the
title entry, and correspondingly for author and year. -/
theorem validate_single_violation (br : FullBookRequest) :
    (br.title = "" → br.author ≠ "" → 1 ≤ br.year →
      ValidateFullBookRequest br = [("title", "title is required")])
    ∧ (br.title ≠ "" → br.author = "" → 1 ≤ br.year →
      ValidateFullBookRequest br = [("author", "author is required")])
    ∧ (br.title ≠ "" → br.author ≠ "" → br.year < 1 →
      ValidateFullBookRequest br = [("year", "year must be a positive integer")]) := by
  refine ⟨fun ht ha hy => ?_, fun ht ha hy => ?_, fun ht ha hy => ?_⟩ <;>
    unfold ValidateFullBookRequest
  · have hy' : ¬ br.year < 1 := by omega
    simp [ht, ha, hy']
  · have hy' : ¬ br.year < 1 := by omega
    simp [ht, ha, hy']
  · simp [ht, ha, hy]

/-- Witness for C2: each of the three single-violation cases evaluated at
a concrete request. -/
theorem validate_single_violation_witness :
    ValidateFullBookRequest ⟨"", "Gary", 2023⟩ = [("title", "title is required")]
    ∧ ValidateFullBookRequest ⟨"Testing Go", "", 2023⟩ = [("author", "author is required")]
    ∧ ValidateFullBookRequest ⟨"Testing Go", "Gary", 0⟩
        = [("year", "year must be a positive integer")] :=
  ⟨(validate_single_violation ⟨"", "Gary", 2023⟩).1 rfl (by decide) (by decide),
   (validate_single_violation ⟨"Testing Go", "", 2023⟩).2.1 (by decide) rfl (by decide),
   (validate_single_violation ⟨"Testing Go", "Gary", 0⟩).2.2 (by decide) (by decide) (by decide)⟩

/-! ## JSON values and the encoding of the entities -/

/-- A JSON value, as produced by the encoding package used in
cmd/api/main.go writeJSON. Objects keep their fields as an ordered
association list. -/
inductive Json where
  | null
  | str (s : String)
  | num (n : Int)
  | arr (xs : List Json)
  | obj (fields : List (String × Json))
deriving Repr

/-- The keys of a JSON object; for any other value, the empty list. -/
def Json.keys : Json → List String
  | .obj fields => fields.map Prod.fst
  | _ => []

/-- The JSON encoding of a Book, following the struct tags of
internal/data/book.go exactly: the tags are id, title, author with
omitempty, and a tag whose name part is empty with omitempty on the year
field. Per the encoding rules of the language, an empty tag name falls
back to the field name, so the year field is emitted under the key Year;
omitempty drops the author when it is the empty string and the year when
it is zero. -/
def Book.toJson (b : Book) : Json :=
  .obj ([("id", .num b.id), ("title", .str b.title)]
    ++ (if b.author = "" then [] else [("author", .str b.author)])
    ++ (if b.year = 0 then [] else [("Year", .num b.year)]))

/-- The JSON encoding of the validation error map, as the body written
by the handlers under the errors key: each association-list entry becomes
an object field with a string value. -/
def errorsToJson (errs : List (String × String)) : Json :=
  .obj (errs.map (fun p => (p.1, .str p.2)))

/-! ## Go slices and the store model

A Go slice is either nil or a non-nil backing sequence; the JSON encoder
emits null for a nil slice and an array for a non-nil one. GetAll builds
its result by appending to a slice declared with var, which starts nil,
so this distinction is observable on an empty table. -/

/-- A Go slice value: none is the nil slice, some l a non-nil slice with
elements l. -/
def GoSlice (α : Type) : Type := Option (List α)

/-- Appending one element to a Go slice: appending to a nil slice
allocates a non-nil slice. -/
def goAppend {α : Type} : GoSlice α → α → GoSlice α
  | none, x => some [x]
  | some l, x => some (l ++ [x])

/-- The number of elements of a Go slice; the nil slice has length 0. -/
def goLen {α : Type} : GoSlice α → Nat
  | none => 0
  | some l => l.length

/-- The JSON encoding of a Go slice of books: null when nil, otherwise
the array of the element encodings. -/
def goSliceToJson : GoSlice Book → Json
  | none => .null
  | some l => .arr (l.map Book.toJson)

/-- A row of the books table. -/
structure Row where
  id : Int
  title : String
  author : String
  year : Int
deriving Repr, DecidableEq

/-- The relational store state: the rows of the books table, kept sorted
by ascending id as the SELECT with ORDER BY id returns them, and the next
id the AUTOINCREMENT column will assign. -/
structure DB where
  rows : List Row
  nextId : Int
deriving Repr, DecidableEq

/-- The store error taxonomy the handlers distinguish: the canonical
no-such-row value (sql.ErrNoRows) against every other failure. -/
inductive StoreError where
  | errNoRows
  | other
deriving Repr, DecidableEq

namespace BookStore

/-- BookStore.GetAll, from the data package: SELECT ordered by id, then a
loop appending each scanned row to a slice declared with var (hence
starting nil). The model keeps rows already in ascending id order, so the
loop visits them in query order. The engineOk flag stands for the
environmental outcome of running the query (timeouts, scan failures);
when false the call surfaces a generic failure. -/
def GetAll (db : DB) (engineOk : Bool) : Except StoreError (GoSlice Book) :=
  if !engineOk then .error .other
  else .ok (db.rows.foldl (fun acc r => goAppend acc ⟨r.id, r.title, r.author, r.year⟩) none)

/-- BookStore.Get, from the data package: if the id is below 1 it returns
sql.ErrNoRows at once, before any query, so neither the table state nor
the engine outcome is consulted; otherwise it selects the row with that
id, scanning it into a Book, with zero rows surfacing as sql.ErrNoRows. -/
def Get (db : DB) (engineOk : Bool) (id : Int) : Except StoreError Book :=
  if id < 1 then .error .errNoRows
  else if !engineOk then .error .other
  else
    match db.rows.find? (fun r => r.id = id) with
    | some r => .ok ⟨r.id, r.title, r.author, r.year⟩
    | none => .error .errNoRows

/-- BookStore.Insert, from the data package: INSERT the three writable
fields, read the last-insert id, set it on the book and return the book
together with the new store state. The AUTOINCREMENT column assigns
nextId to the new row. The engineOk flag stands for the insert and the
identifier retrieval succeeding; when false the call fails. -/
def Insert (db : DB) (engineOk : Bool) (book : Book) : Except StoreError (Book × DB) :=
  if !engineOk then .error .other
  else
    let id := db.nextId
    let row : Row := ⟨id, book.title, book.author, book.year⟩
    .ok ({ book with id := id }, ⟨db.rows ++ [row], db.nextId + 1⟩)

/-- Modelled from the spec: BookStore.Update is absent from the source
files (only its caller putBookHandler and the spec describe it). Per the
spec it executes UPDATE books SET title, author, year WHERE id equals the
id of the given book, then re-fetches the row, and when no row matches
that id it surfaces the canonical no-such-row failure. -/
def Update (db : DB) (engineOk : Bool) (book : Book) : Except StoreError (Book × DB) :=
  if !engineOk then .error .other
  else
    let rows := db.rows.map (fun r =>
      if r.id = book.id then ⟨r.id, book.title, book.author, book.year⟩ else r)
    match rows.find? (fun r => r.id = book.id) with
    | some r => .ok (⟨r.id, r.title, r.author, r.year⟩, ⟨rows, db.nextId⟩)
    | none => .error .errNoRows

end BookStore

/-- SeedIfEmpty, from the data package migration file: count the rows of
the books table; when the count is above zero do nothing, otherwise
insert the two fixed demo rows in one statement, the AUTOINCREMENT column
assigning them consecutive ids. -/
def SeedIfEmpty (db : DB) : DB :=
  if db.rows.length > 0 then db
  else
    { rows := db.rows ++
        [⟨db.nextId, "The Go Programming Language", "Alan Donovan", 2015⟩,
         ⟨db.nextId + 1, "Designing Data-Intensive Applications", "Martin Kleppmann", 2017⟩],
      nextId := db.nextId + 2 }

/-! ## The HTTP handler layer, from cmd/api/routes.go

A handler response is a status code together with an optional JSON body;
none stands for the default plain-text body that http.Error and
http.NotFound write. Path-parameter parsing and JSON body decoding happen
in the transport layer before the embedded logic runs, so the handlers
take the parse result (none meaning strconv.ParseInt failed) and the
decode result (none meaning the JSON decoder failed) as inputs. -/

/-- A response: HTTP status code plus the JSON body when the handler
wrote one through writeJSON, none for the transport default text body. -/
structure HttpResponse where
  status : Nat
  body : Option Json

/-- listBooksHandler, from cmd/api/routes.go: GetAll, a store failure
becoming 500, otherwise 200 with the books wrapped in an object under
the books key. -/
def listBooksHandler (db : DB) (engineOk : Bool) : HttpResponse :=
  match BookStore.GetAll db engineOk with
  | .error _ => ⟨500, none⟩
  | .ok books => ⟨200, some (.obj [("books", goSliceToJson books)])⟩

/-- showBookHandler, from cmd/api/routes.go: an unparseable id or an id
below 1 is 404; then Get, with sql.ErrNoRows becoming 404, any other
failure 500, and success 200 with the Book at the top level. -/
def showBookHandler (db : DB) (engineOk : Bool) (idParam : Option Int) : HttpResponse :=
  match idParam with
  | none => ⟨404, none⟩
  | some id =>
    if id < 1 then ⟨404, none⟩
    else
      match BookStore.Get db engineOk id with
      | .error .errNoRows => ⟨404, none⟩
      | .error .other => ⟨500, none⟩
      | .ok book => ⟨200, some book.toJson⟩

/-- createBookHandler, from cmd/api/routes.go: a decode failure is 400;
a non-empty validation map is 422 with the map under the errors key; an
Insert failure is 500; otherwise 201 with the saved Book. The handler
builds the Book from the three request fields (its id left at the zero
value) and returns the store state alongside the response. -/
def createBookHandler (db : DB) (engineOk : Bool) (decoded : Option FullBookRequest) :
    HttpResponse × DB :=
  match decoded with
  | none => (⟨400, none⟩, db)
  | some br =>
    let validationErrors := ValidateFullBookRequest br
    if validationErrors.length > 0 then
      (⟨422, some (.obj [("errors", errorsToJson validationErrors)])⟩, db)
    else
      let book : Book := ⟨0, br.title, br.author, br.year⟩
      match BookStore.Insert db engineOk book with
      | .error _ => (⟨500, none⟩, db)
      | .ok (savedBook, db2) => (⟨201, some savedBook.toJson⟩, db2)

/-- putBookHandler, from cmd/api/routes.go: an unparseable id or an id
below 1 is 404; a decode failure is 400; a non-empty validation map is
422 with the map under the errors key; then Get, sql.ErrNoRows becoming
404 and other failures 500; then the three request fields replace the
fields of the fetched book and Update runs, with the same error mapping,
success being 200 with the updated Book. -/
def putBookHandler (db : DB) (engineOk : Bool) (idParam : Option Int)
    (decoded : Option FullBookRequest) : HttpResponse × DB :=
  match idParam with
  | none => (⟨404, none⟩, db)
  | some id =>
    if id < 1 then (⟨404, none⟩, db)
    else
      match decoded with
      | none => (⟨400, none⟩, db)
      | some br =>
        let validationErrors := ValidateFullBookRequest br
        if validationErrors.length > 0 then
          (⟨422, some (.obj [("errors", errorsToJson validationErrors)])⟩, db)
        else
          match BookStore.Get db engineOk id with
          | .error .errNoRows => (⟨404, none⟩, db)
          | .error .other => (⟨500, none⟩, db)
          | .ok book =>
            let updated : Book := { book with
              title := br.title, author := br.author, year := br.year }
            match BookStore.Update db engineOk updated with
            | .error .errNoRows => (⟨404, none⟩, db)
            | .error .other => (⟨500, none⟩, db)
            | .ok (updatedBook, db2) => (⟨200, some updatedBook.toJson⟩, db2)

/-! ## Theorems about the handlers and the store -/

/-- C3: on POST /books, a body that fails to decode yields 400; a
decodable body with a non-empty validation map yields 422 with the map
under the errors key; an Insert failure yields 500; otherwise 201 with
the persisted Book, carrying the store-assigned id, as the top-level
body. -/
theorem createBook_status_mapping (db : DB) (engineOk : Bool)
    (decoded : Option FullBookRequest) :
    (decoded = none → createBookHandler db engineOk decoded = (⟨400, none⟩, db))
    ∧ (∀ br, decoded = some br → ValidateFullBookRequest br ≠ [] →
        createBookHandler db engineOk decoded
          = (⟨422, some (.obj [("errors", errorsToJson (ValidateFullBookRequest br))])⟩, db))
    ∧ (∀ br, decoded = some br → ValidateFullBookRequest br = [] → engineOk = false →
        createBookHandler db engineOk decoded = (⟨500, none⟩, db))
    ∧ (∀ br, decoded = some br → ValidateFullBookRequest br = [] → engineOk = true →
        createBookHandler db engineOk decoded
          = (⟨201, some (Book.toJson ⟨db.nextId, br.title, br.author, br.year⟩)⟩,
             ⟨db.rows ++ [⟨db.nextId, br.title, br.author, br.year⟩], db.nextId + 1⟩)) := by
  refine ⟨?_, ?_, ?_, ?_⟩
  · rintro rfl
    rfl
  · rintro br rfl hne
    have hl : 0 < (ValidateFullBookRequest br).length := List.length_pos.mpr hne
    simp [createBookHandler, hl]
  · rintro br rfl hv rfl
    simp [createBookHandler, hv, BookStore.Insert]
  · rintro br rfl hv rfl
    simp [createBookHandler, hv, BookStore.Insert]

/-- Witness for C3: the four branches evaluated concretely, on the empty
store with next id 1: a decode failure, the invalid empty request, a
valid request against a failing engine, and a valid request against a
working engine. -/
theorem createBook_status_mapping_witness :
    createBookHandler ⟨[], 1⟩ true none = (⟨400, none⟩, ⟨[], 1⟩)
    ∧ createBookHandler ⟨[], 1⟩ true (some ⟨"", "", 0⟩)
        = (⟨422, some (.obj [("errors", errorsToJson (ValidateFullBookRequest ⟨"", "", 0⟩))])⟩,
           ⟨[], 1⟩)
    ∧ createBookHandler ⟨[], 1⟩ false (some ⟨"Testing Go", "Gary Clarke", 2030⟩)
        = (⟨500, none⟩, ⟨[], 1⟩)
    ∧ createBookHandler ⟨[], 1⟩ true (some ⟨"Testing Go", "Gary Clarke", 2030⟩)
        = (⟨201, some (Book.toJson ⟨1, "Testing Go", "Gary Clarke", 2030⟩)⟩,
           ⟨[⟨1, "Testing Go", "Gary Clarke", 2030⟩], 2⟩) :=
  ⟨(createBook_status_mapping ⟨[], 1⟩ true none).1 rfl,
   (createBook_status_mapping ⟨[], 1⟩ true (some ⟨"", "", 0⟩)).2.1 ⟨"", "", 0⟩ rfl (by decide),
   (createBook_status_mapping ⟨[], 1⟩ false (some ⟨"Testing Go", "Gary Clarke", 2030⟩)).2.2.1
     ⟨"Testing Go", "Gary Clarke", 2030⟩ rfl (by decide) rfl,
   (createBook_status_mapping ⟨[], 1⟩ true (some ⟨"Testing Go", "Gary Clarke", 2030⟩)).2.2.2
     ⟨"Testing Go", "Gary Clarke", 2030⟩ rfl (by decide) rfl⟩

/-- C4: for any id below 1, Get fails with the canonical no-such-row
error at once, its result not depending on the table state or the engine
outcome (no query runs), and GET /books with that id is a 404. -/
theorem get_precheck_404 (db : DB) (engineOk : Bool) (id : Int) (h : id < 1) :
    BookStore.Get db engineOk id = .error .errNoRows
    ∧ (∀ db2 engineOk2, BookStore.Get db engineOk id = BookStore.Get db2 engineOk2 id)
    ∧ showBookHandler db engineOk (some id) = ⟨404, none⟩ := by
  refine ⟨by simp [BookStore.Get, h], fun db2 e2 => by simp [BookStore.Get, h],
    by simp [showBookHandler, h]⟩

/-- Witness for C4: the pre-check evaluated at id 0 against a one-row
store. -/
theorem get_precheck_404_witness :
    BookStore.Get ⟨[⟨1, "Stub", "N/A", 2015⟩], 2⟩ true 0 = .error .errNoRows
    ∧ showBookHandler ⟨[⟨1, "Stub", "N/A", 2015⟩], 2⟩ true (some 0) = ⟨404, none⟩ :=
  ⟨(get_precheck_404 ⟨[⟨1, "Stub", "N/A", 2015⟩], 2⟩ true 0 (by decide)).1,
   (get_precheck_404 ⟨[⟨1, "Stub", "N/A", 2015⟩], 2⟩ true 0 (by decide)).2.2⟩

/-- Counterexample to C5 as stated: on the empty table, GetAll returns
the nil slice (an absent value, not a non-nil empty one), and the GET
/books body maps the books key to JSON null, not to an empty array. -/
theorem listBooks_empty_counterexample :
    BookStore.GetAll ⟨[], 1⟩ true = .ok (none : GoSlice Book)
    ∧ listBooksHandler ⟨[], 1⟩ true = ⟨200, some (.obj [("books", .null)])⟩
    ∧ ¬ (listBooksHandler ⟨[], 1⟩ true).body = some (.obj [("books", .arr [])]) := by
  refine ⟨rfl, rfl, fun h => ?_⟩
  simp [listBooksHandler, BookStore.GetAll, goSliceToJson] at h

/-- C5 amended: when the books table contains no rows, GetAll succeeds
and returns the nil slice, whose length is zero, and the GET /books
response is a 200 whose body is the object mapping the books key to JSON
null. -/
theorem listBooks_empty_amended (db : DB) (engineOk : Bool)
    (h : db.rows = []) (he : engineOk = true) :
    BookStore.GetAll db engineOk = .ok (none : GoSlice Book)
    ∧ goLen (none : GoSlice Book) = 0
    ∧ listBooksHandler db engineOk = ⟨200, some (.obj [("books", .null)])⟩ := by
  subst he
  refine ⟨by simp [BookStore.GetAll, h], rfl,
    by simp [listBooksHandler, BookStore.GetAll, goSliceToJson, h]⟩

/-- Witness for C5 amended: the empty-table response evaluated on the
empty store. -/
theorem listBooks_empty_amended_witness :
    BookStore.GetAll ⟨[], 1⟩ true = .ok (none : GoSlice Book)
    ∧ listBooksHandler ⟨[], 1⟩ true = ⟨200, some (.obj [("books", .null)])⟩ :=
  ⟨(listBooks_empty_amended ⟨[], 1⟩ true rfl rfl).1,
   (listBooks_empty_amended ⟨[], 1⟩ true rfl rfl).2.2⟩

/-- C6: when the insert and the identifier retrieval succeed, Insert
returns the input book with its id set to the id of the newly inserted
row (the one the AUTOINCREMENT column assigned), all other fields equal
to those of the input. -/
theorem insert_returns_assigned_id (db : DB) (engineOk : Bool) (book : Book)
    (h : engineOk = true) :
    BookStore.Insert db engineOk book
      = .ok ({ book with id := db.nextId },
             ⟨db.rows ++ [⟨db.nextId, book.title, book.author, book.year⟩], db.nextId + 1⟩)
    ∧ ({ book with id := db.nextId } : Book).id = db.nextId
    ∧ ({ book with id := db.nextId } : Book).title = book.title
    ∧ ({ book with id := db.nextId } : Book).author = book.author
    ∧ ({ book with id := db.nextId } : Book).year = book.year := by
  subst h
  exact ⟨rfl, rfl, rfl, rfl, rfl⟩

/-- Witness for C6: inserting a concrete book into a store whose next id
is 3. -/
theorem insert_returns_assigned_id_witness :
    BookStore.Insert ⟨[], 3⟩ true ⟨0, "Testing Go", "Gary Clarke", 2030⟩
      = .ok (⟨3, "Testing Go", "Gary Clarke", 2030⟩,
             ⟨[⟨3, "Testing Go", "Gary Clarke", 2030⟩], 4⟩) :=
  (insert_returns_assigned_id ⟨[], 3⟩ true ⟨0, "Testing Go", "Gary Clarke", 2030⟩ rfl).1

/-- Finding a row by id after every row with that id has been
overwritten with the writable fields of a book: the search result is the
overwritten image of the original search result. -/
theorem find_overwritten_row (b : Book) (rows : List Row) :
    (rows.map (fun r =>
        if r.id = b.id then Row.mk r.id b.title b.author b.year else r)).find?
        (fun r => r.id = b.id)
      = (rows.find? (fun r => r.id = b.id)).map
          (fun r => Row.mk r.id b.title b.author b.year) := by
  induction rows with
  | nil => rfl
  | cons r t ih =>
    by_cases h : r.id = b.id
    · simp [List.find?, h]
    · simp [List.find?, h, ih]

/-- C7: Update overwrites the title, author and year of the row whose id
is that of the given book and returns the re-fetched row; when no row
matches that id it fails with the canonical no-such-row error; and the
PUT /books handler answers 404 when the target id matches no row. -/
theorem update_semantics_put_404 (db : DB) (book : Book) (id : Int)
    (br : FullBookRequest) :
    ((db.rows.find? (fun r => r.id = book.id)).isSome →
      ∃ updatedBook,
        BookStore.Update db true book
          = .ok (updatedBook,
              ⟨db.rows.map (fun r =>
                  if r.id = book.id then ⟨r.id, book.title, book.author, book.year⟩ else r),
               db.nextId⟩)
        ∧ updatedBook.id = book.id ∧ updatedBook.title = book.title
        ∧ updatedBook.author = book.author ∧ updatedBook.year = book.year)
    ∧ (db.rows.find? (fun r => r.id = book.id) = none →
        BookStore.Update db true book = .error .errNoRows)
    ∧ (1 ≤ id → ValidateFullBookRequest br = [] →
        db.rows.find? (fun r => r.id = id) = none →
        putBookHandler db true (some id) (some br) = (⟨404, none⟩, db)) := by
  refine ⟨?_, ?_, ?_⟩
  · intro hs
    obtain ⟨r, hr⟩ := Option.isSome_iff_exists.mp hs
    have hid : r.id = book.id := by simpa using List.find?_some hr
    refine ⟨⟨r.id, book.title, book.author, book.year⟩, ?_, hid, rfl, rfl, rfl⟩
    simp [-List.find?_map, BookStore.Update, find_overwritten_row, hr]
  · intro hn
    simp [-List.find?_map, BookStore.Update, find_overwritten_row, hn]
  · intro h1 hv hn
    have h2 : ¬ id < 1 := by omega
    simp [putBookHandler, h2, hv, BookStore.Get, hn]

/-- Witness for C7: against a one-row store, updating the existing row 1
rewrites it, updating the absent row 99 fails with no-such-row, and a
valid PUT targeting the absent id 99 answers 404. -/
theorem update_semantics_put_404_witness :
    (∃ updatedBook,
        BookStore.Update ⟨[⟨1, "Old", "Old Author", 1999⟩], 2⟩ true
            ⟨1, "New", "New Author", 2020⟩
          = .ok (updatedBook, ⟨[⟨1, "New", "New Author", 2020⟩], 2⟩)
        ∧ updatedBook.id = 1 ∧ updatedBook.title = "New"
        ∧ updatedBook.author = "New Author" ∧ updatedBook.year = 2020)
    ∧ BookStore.Update ⟨[⟨1, "Old", "Old Author", 1999⟩], 2⟩ true
        ⟨99, "New", "New Author", 2020⟩ = .error .errNoRows
    ∧ putBookHandler ⟨[⟨1, "Old", "Old Author", 1999⟩], 2⟩ true (some 99)
        (some ⟨"New", "New Author", 2020⟩)
      = (⟨404, none⟩, ⟨[⟨1, "Old", "Old Author", 1999⟩], 2⟩) :=
  ⟨(update_semantics_put_404 ⟨[⟨1, "Old", "Old Author", 1999⟩], 2⟩
      ⟨1, "New", "New Author", 2020⟩ 99 ⟨"New", "New Author", 2020⟩).1 (by decide),
   (update_semantics_put_404 ⟨[⟨1, "Old", "Old Author", 1999⟩], 2⟩
      ⟨99, "New", "New Author", 2020⟩ 99 ⟨"New", "New Author", 2020⟩).2.1 (by decide),
   (update_semantics_put_404 ⟨[⟨1, "Old", "Old Author", 1999⟩], 2⟩
      ⟨99, "New", "New Author", 2020⟩ 99 ⟨"New", "New Author", 2020⟩).2.2
      (by decide) (by decide) (by decide)⟩

/-- C8, evaluated on the code as written: for a book whose author is
non-empty and whose year is non-zero, the encoding carries the keys id,
title, author and Year, the year key being the capitalized field name
because the tag on the year field has an empty name part; the key year
(lower case) never appears. With the author empty and the year zero,
both optional fields are omitted and only id and title remain. -/
theorem book_json_year_key :
    (Book.toJson ⟨1, "The Go Programming Language", "Alan Donovan", 2015⟩)
      = .obj [("id", .num 1), ("title", .str "The Go Programming Language"),
              ("author", .str "Alan Donovan"), ("Year", .num 2015)]
    ∧ (Book.toJson ⟨1, "The Go Programming Language", "Alan Donovan", 2015⟩).keys
      = ["id", "title", "author", "Year"]
    ∧ "year" ∉ (Book.toJson ⟨1, "The Go Programming Language", "Alan Donovan", 2015⟩).keys
    ∧ (Book.toJson ⟨7, "Untitled Draft", "", 0⟩).keys = ["id", "title"] := by
  refine ⟨rfl, rfl, ?_, rfl⟩
  decide

/-- C9: seeding on a table with zero rows appends exactly the two fixed
demo rows with consecutive store-assigned ids; on a table whose row
count is positive it changes nothing; hence running it twice equals
running it once. -/
theorem seed_if_empty_rows (db : DB) :
    (db.rows.length = 0 →
      (SeedIfEmpty db).rows
        = [⟨db.nextId, "The Go Programming Language", "Alan Donovan", 2015⟩,
           ⟨db.nextId + 1, "Designing Data-Intensive Applications", "Martin Kleppmann", 2017⟩])
    ∧ (0 < db.rows.length → SeedIfEmpty db = db)
    ∧ SeedIfEmpty (SeedIfEmpty db) = SeedIfEmpty db := by
  by_cases h : db.rows.length = 0
  · have hnil : db.rows = [] := List.length_eq_zero.mp h
    refine ⟨fun _ => ?_, fun hp => absurd h (by omega), ?_⟩
    · simp [SeedIfEmpty, hnil]
    · simp [SeedIfEmpty, hnil]
  · refine ⟨fun hz => absurd hz h, fun _ => ?_, ?_⟩
    · simp [SeedIfEmpty, Nat.pos_of_ne_zero h]
    · simp [SeedIfEmpty, Nat.pos_of_ne_zero h]

/-- Witness for C9: seeding the empty store yields the two demo rows
with ids 1 and 2, and seeding a store that already holds a row leaves it
unchanged. -/
theorem seed_if_empty_rows_witness :
    (SeedIfEmpty ⟨[], 1⟩).rows
      = [⟨1, "The Go Programming Language", "Alan Donovan", 2015⟩,
         ⟨2, "Designing Data-Intensive Applications", "Martin Kleppmann", 2017⟩]
    ∧ SeedIfEmpty ⟨[⟨1, "Stub", "N/A", 2015⟩], 2⟩ = ⟨[⟨1, "Stub", "N/A", 2015⟩], 2⟩ :=
  ⟨(seed_if_empty_rows ⟨[], 1⟩).1 rfl,
   (seed_if_empty_rows ⟨[⟨1, "Stub", "N/A", 2015⟩], 2⟩).2.1 (by decide)⟩

/-- C10: in the PUT /books handler, validation runs before the store
lookup: with a parseable id of at least 1 and a decoded body whose
validation map is non-empty, the response is the 422 carrying the map,
even though no row with that id exists in the store. -/
theorem put_validates_before_lookup (db : DB) (engineOk : Bool) (id : Int)
    (br : FullBookRequest) (h1 : 1 ≤ id) (h2 : ValidateFullBookRequest br ≠ [])
    (_h3 : db.rows.find? (fun r => r.id = id) = none) :
    putBookHandler db engineOk (some id) (some br)
      = (⟨422, some (.obj [("errors", errorsToJson (ValidateFullBookRequest br))])⟩, db) := by
  have h4 : ¬ id < 1 := by omega
  have h5 : 0 < (ValidateFullBookRequest br).length := List.length_pos.mpr h2
  simp [putBookHandler, h4, h5]

/-- Witness for C10: a PUT of the all-empty body at the absent id 42
against a one-row store answers 422 with all three field errors. -/
theorem put_validates_before_lookup_witness :
    putBookHandler ⟨[⟨1, "Stub", "N/A", 2015⟩], 2⟩ true (some 42) (some ⟨"", "", 0⟩)
      = (⟨422, some (.obj [("errors", errorsToJson (ValidateFullBookRequest ⟨"", "", 0⟩))])⟩,
         ⟨[⟨1, "Stub", "N/A", 2015⟩], 2⟩) :=
  put_validates_before_lookup ⟨[⟨1, "Stub", "N/A", 2015⟩], 2⟩ true 42 ⟨"", "", 0⟩
    (by decide) (by decide) (by decide)
